import Mathlib

/-!
Shallow embedding of the provider / dispatch core of the llmPlayground
repository: `llm_providers.py` (GroqProvider, OllamaProvider,
DualLLMManager), the `/api/summarize` dispatch of `modern_app.py`, and
`DocumentProcessor.validate_text_content` of
`src/core/document_processor.py`.

Network, time and the Python environment are modelled as explicit oracle
inputs; each network-touching operation additionally reports how many
network requests it issued.
-/

namespace LLMPlayground

/-! ## Python string primitives used by `validate_text_content` -/

/-- Python's `str` whitespace class (the characters recognised by
`str.strip()` / `str.split()` for ASCII text). -/
def pyIsSpace (c : Char) : Bool :=
  c = ' ' || c = '\t' || c = '\n' || c = '\x0d' || c = '\x0b' || c = '\x0c'

/-- Python `str.strip()` on the character list: drop whitespace from both
ends. -/
def pyStripList (cs : List Char) : List Char :=
  ((cs.dropWhile pyIsSpace).reverse.dropWhile pyIsSpace).reverse

/-- Python `str.strip()`. -/
def pyStrip (s : String) : String := ⟨pyStripList s.data⟩

/-- Helper for `str.split()` with no separator: accumulate the current word
(in reverse) and split on runs of whitespace, producing no empty words. -/
def wordsAux : List Char → List Char → List (List Char)
  | [], acc => if acc.isEmpty then [] else [acc.reverse]
  | c :: cs, acc =>
      if pyIsSpace c then
        if acc.isEmpty then wordsAux cs [] else acc.reverse :: wordsAux cs []
      else
        wordsAux cs (c :: acc)

/-- Python `str.split()` with no arguments. -/
def pySplit (s : String) : List String :=
  (wordsAux s.data []).map fun w => ⟨w⟩

/-! ## `DocumentProcessor.validate_text_content` -/

/-- The dict returned by `validate_text_content`. -/
structure ValidationResult where
  valid : Bool
  error : Option String
  word_count : Nat
  deriving Repr, DecidableEq

/-- The f-string `f"Text too short. Minimum {min_words} words required, got {word_count}"`. -/
def tooShortMsg (min_words word_count : Nat) : String :=
  "Text too short. Minimum " ++ toString min_words ++ " words required, got "
    ++ toString word_count

/-- The f-string `f"Text too long. Maximum {max_words} words allowed, got {word_count}"`. -/
def tooLongMsg (max_words word_count : Nat) : String :=
  "Text too long. Maximum " ++ toString max_words ++ " words allowed, got "
    ++ toString word_count

/-- `DocumentProcessor.validate_text_content(text, min_words=50, max_words=10000)`. -/
def validate_text_content (text : String) (min_words : Nat := 50)
    (max_words : Nat := 10000) : ValidationResult :=
  if text = "" || pyStrip text = "" then
    { valid := false, error := some "Text content is empty", word_count := 0 }
  else
    let word_count := (pySplit text).length
    if word_count < min_words then
      { valid := false, error := some (tooShortMsg min_words word_count),
        word_count := word_count }
    else if word_count > max_words then
      { valid := false, error := some (tooLongMsg max_words word_count),
        word_count := word_count }
    else
      { valid := true, error := none, word_count := word_count }

/-! ## `llm_providers.py`: outcomes and oracles -/

/-- The result dict produced by every `generate_summary`.  A Python dict
without an `"error"` key is modelled with `error = none`. -/
structure SummaryResult where
  summary : String
  success : Bool
  response_time : Rat
  token_count : Option Nat
  model : String
  provider : String
  error : Option String
  deriving Repr, DecidableEq

/-- Process environment seen by `GroqProvider.__init__`:
`os.getenv("GROQ_API_KEY")` and whether `from groq import Groq`
succeeds. -/
structure GroqEnv where
  env_key : Option String
  groq_importable : Bool
  deriving Repr, DecidableEq

/-- Python `a or b` on optional strings: `None` and `""` are falsy. -/
def pyOr (a b : Option String) : Option String :=
  match a with
  | some s => if s = "" then b else some s
  | none => b

/-- Python truthiness of an optional string. -/
def pyTruthy : Option String → Bool
  | some s => s ≠ ""
  | none => false

/-- Outcome of the network call issued by the Groq client
(`client.chat.completions.create`): either an exception with message, or a
response carrying `choices[0].message.content` and the optional
`usage.total_tokens`. -/
inductive GroqCallResult where
  | exc (msg : String)
  | ok (content : String) (usage : Option Nat)
  deriving Repr, DecidableEq

/-- Outcome of `requests.post(f"{base_url}/api/generate", ...)` in
`OllamaProvider.generate_summary`: a timeout, another exception, or a
response with a status code, the `"response"` field and the optional
`"eval_count"` field. -/
inductive OllamaGenCall where
  | timeout
  | exc (msg : String)
  | resp (status : Nat) (text : String) (evalCount : Option Nat)
  deriving Repr, DecidableEq

/-- Outcome of `requests.get(f"{base_url}/api/tags", timeout=5)`:
`none` when the request raises, otherwise the status code and the parsed
model-name list. -/
structure OllamaEnv where
  tags : Option (Nat × List String)
  deriving Repr, DecidableEq

/-! ## `GroqProvider` -/

/-- A constructed `GroqProvider`: the stored `self.api_key` (after the
`api_key or os.getenv(...)` fallback) and whether `self.client` is not
`None`. -/
structure GroqProvider where
  model_name : String
  api_key : Option String
  client : Bool
  deriving Repr, DecidableEq

/-- `GroqProvider.__init__(model_name, api_key)`. -/
def GroqProvider.init (env : GroqEnv) (model_name : String)
    (api_key : Option String) : GroqProvider :=
  let key := pyOr api_key env.env_key
  { model_name := model_name, api_key := key,
    client := pyTruthy key && env.groq_importable }

/-- `GroqProvider.is_available`: `self.client is not None and self.api_key
is not None`. -/
def GroqProvider.is_available (p : GroqProvider) : Bool :=
  p.client && p.api_key.isSome

/-- `GroqProvider.generate_summary`.  `call` is the network oracle for the
chat-completion request, `elapsed` the wall-clock time it takes.  Returns
the result dict together with the number of network requests issued. -/
def GroqProvider.generate_summary (p : GroqProvider) (call : GroqCallResult)
    (elapsed : Rat) (_text : String) (_max_length : Nat) :
    SummaryResult × Nat :=
  if ¬ p.is_available then
    ({ summary := "Groq API key not configured", success := false,
       response_time := 0, token_count := none, model := p.model_name,
       provider := "Groq (Cloud)", error := some "API key not provided" }, 0)
  else
    match call with
    | .ok content usage =>
        ({ summary := content.trim, success := true, response_time := elapsed,
           token_count := usage, model := p.model_name,
           provider := "Groq (Cloud)", error := none }, 1)
    | .exc msg =>
        ({ summary := "Error generating summary: " ++ msg, success := false,
           response_time := elapsed, token_count := none,
           model := p.model_name, provider := "Groq (Cloud)",
           error := some msg }, 1)

/-! ## `OllamaProvider` -/

/-- A constructed `OllamaProvider` (the base url is carried by the oracle). -/
structure OllamaProvider where
  model_name : String
  deriving Repr, DecidableEq

/-- `OllamaProvider.is_available`: probe `/api/tags`; on status 200 test
membership of `self.model_name` in the reported names; any error yields
`false`.  Also returns the number of network requests issued (always 1). -/
def OllamaProvider.is_available (p : OllamaProvider) (env : OllamaEnv) :
    Bool × Nat :=
  match env.tags with
  | none => (false, 1)
  | some (status, models) =>
      (if status = 200 then models.contains p.model_name else false, 1)

/-- `OllamaProvider.generate_summary`. -/
def OllamaProvider.generate_summary (p : OllamaProvider) (env : OllamaEnv)
    (call : OllamaGenCall) (elapsed : Rat) (_text : String)
    (_max_length : Nat) : SummaryResult × Nat :=
  if ¬ (p.is_available env).1 then
    ({ summary := "Ollama model '" ++ p.model_name
         ++ "' not available. Please ensure Ollama is running and model is installed.",
       success := false, response_time := 0, token_count := none,
       model := p.model_name, provider := "Ollama (Local)",
       error := some ("Model " ++ p.model_name ++ " not available") }, 1)
  else
    match call with
    | .resp status text evalCount =>
        if status = 200 then
          ({ summary := text.trim, success := true, response_time := elapsed,
             token_count := evalCount, model := p.model_name,
             provider := "Ollama (Local)", error := none }, 2)
        else
          ({ summary := "Ollama API error: " ++ toString status,
             success := false, response_time := elapsed, token_count := none,
             model := p.model_name, provider := "Ollama (Local)",
             error := some ("API error: " ++ toString status) }, 2)
    | .timeout =>
        ({ summary := "Request timed out. Local model may be too large for available resources.",
           success := false, response_time := elapsed, token_count := none,
           model := p.model_name, provider := "Ollama (Local)",
           error := some "Request timeout" }, 2)
    | .exc msg =>
        ({ summary := "Error generating summary: " ++ msg, success := false,
           response_time := elapsed, token_count := none,
           model := p.model_name, provider := "Ollama (Local)",
           error := some msg }, 2)

/-! ## `DualLLMManager` -/

/-- The Groq catalog `self.groq_models` (insertion order of the dict). -/
def groq_models : List (String × String) :=
  [("Groq - Llama 3.1 70B", "llama-3.1-70b-versatile"),
   ("Groq - Llama 3.1 8B", "llama-3.1-8b-instant"),
   ("Groq - Llama 3 70B", "llama3-70b-8192"),
   ("Groq - Llama 3 8B", "llama3-8b-8192"),
   ("Groq - Mixtral 8x7B", "mixtral-8x7b-32768"),
   ("Groq - Gemma 7B", "gemma-7b-it"),
   ("Groq - Gemma 2 9B", "gemma2-9b-it")]

/-- The Ollama catalog `self.ollama_models` (insertion order of the dict). -/
def ollama_models : List (String × String) :=
  [("Ollama - Llama 3.1 8B", "llama3.1:8b"),
   ("Ollama - Llama 3.1 70B", "llama3.1:70b"),
   ("Ollama - Llama 3 8B", "llama3:8b"),
   ("Ollama - Mistral 7B", "mistral:7b"),
   ("Ollama - Gemma 7B", "gemma:7b"),
   ("Ollama - Gemma 2 9B", "gemma2:9b"),
   ("Ollama - Phi-3 Mini", "phi3:mini"),
   ("Ollama - CodeLlama 7B", "codellama:7b"),
   ("Ollama - Neural Chat 7B", "neural-chat:7b")]

/-- Python dict lookup `d[k]` / membership, on an association list with
distinct keys. -/
def dictLookup (d : List (String × String)) (k : String) : Option String :=
  (d.find? fun p => p.1 = k).map Prod.snd

/-- The mutable state of a `DualLLMManager` (the catalogs are the fixed
literals above). -/
structure DualLLMManager where
  groq_api_key : Option String
  deriving Repr, DecidableEq

/-- `DualLLMManager.get_available_providers`. -/
def DualLLMManager.get_available_providers (_m : DualLLMManager) :
    List String :=
  groq_models.map Prod.fst ++ ollama_models.map Prod.fst

/-- `DualLLMManager._get_available_ollama_models`: probe `/api/tags` once;
on status 200 keep, in catalog order, the display names whose model id is
installed; on any error return `[]`. -/
def DualLLMManager.get_available_ollama_models (_m : DualLLMManager)
    (env : OllamaEnv) : List String :=
  match env.tags with
  | none => []
  | some (status, installed) =>
      if status = 200 then
        (ollama_models.filter fun p => installed.contains p.2).map Prod.fst
      else []

/-- `DualLLMManager.get_enabled_providers`. -/
def DualLLMManager.get_enabled_providers (m : DualLLMManager)
    (env : OllamaEnv) : List String :=
  (if pyTruthy m.groq_api_key then groq_models.map Prod.fst else [])
    ++ m.get_available_ollama_models env

/-- A resolved provider handle. -/
inductive ProviderHandle where
  | groq (g : GroqProvider)
  | ollama (o : OllamaProvider)
  deriving Repr, DecidableEq

/-- `DualLLMManager.get_provider_instance`. -/
def DualLLMManager.get_provider_instance (m : DualLLMManager)
    (genv : GroqEnv) (provider_name : String) : Option ProviderHandle :=
  match dictLookup groq_models provider_name with
  | some model_name =>
      some (.groq (GroqProvider.init genv model_name m.groq_api_key))
  | none =>
      match dictLookup ollama_models provider_name with
      | some model_name => some (.ollama { model_name := model_name })
      | none => none

/-- Per-call oracle: the network outcomes and elapsed time a single
`generate_summary` call would observe. -/
structure CallEnv where
  groqCall : GroqCallResult
  ollamaCall : OllamaGenCall
  elapsed : Rat
  deriving Repr, DecidableEq

/-- `DualLLMManager.generate_summary(provider_name, text, max_length)`:
resolve, synthesize a failed outcome for unknown labels, otherwise delegate.
Returns the result dict and the number of network requests issued. -/
def DualLLMManager.generate_summary (m : DualLLMManager) (genv : GroqEnv)
    (oenv : OllamaEnv) (c : CallEnv) (provider_name text : String)
    (max_length : Nat) : SummaryResult × Nat :=
  match m.get_provider_instance genv provider_name with
  | none =>
      ({ summary := "Provider '" ++ provider_name ++ "' not found",
         success := false, response_time := 0, token_count := none,
         model := "Unknown", provider := "Unknown",
         error := some ("Provider '" ++ provider_name ++ "' not available") },
       0)
  | some (.groq g) => g.generate_summary c.groqCall c.elapsed text max_length
  | some (.ollama o) =>
      o.generate_summary oenv c.ollamaCall c.elapsed text max_length

/-- `DualLLMManager.update_groq_api_key`. -/
def DualLLMManager.update_groq_api_key (_m : DualLLMManager)
    (api_key : String) : DualLLMManager :=
  { groq_api_key := some api_key }

/-! ## `modern_app.py`: `/api/summarize` dispatch -/

/-- The pydantic `SummaryResponse` record built per requested model. -/
structure SummaryResponse where
  model : String
  summary : String
  response_time : Rat
  token_count : Option Nat
  success : Bool
  error : Option String
  deriving Repr, DecidableEq

/-- The `stats` block of a completed dispatch. -/
structure Stats where
  total : Nat
  successful : Nat
  failed : Nat
  avg_response_time : Rat
  total_tokens : Nat
  deriving Repr, DecidableEq

/-- The JSON envelope returned by `/api/summarize`.  The fast-fail returns
carry `error` and empty `results` with no `message`/`stats`. -/
structure SummarizeResponse where
  success : Bool
  error : Option String
  message : Option String
  results : List SummaryResponse
  stats : Option Stats
  deriving Repr, DecidableEq

/-- Oracle for one whole dispatch: the `i`-th requested model's call
environment, plus whether the Python call for index `i` raises
(`raised i = some msg` models the per-model `except Exception` branch). -/
structure DispatchEnv where
  calls : Nat → CallEnv
  raised : Nat → Option String

/-- The `for model in request.models` loop body, applied at index `i`:
build a `SummaryResponse` from the manager result, or from the caught
exception. -/
def dispatchStep (m : DualLLMManager) (genv : GroqEnv) (oenv : OllamaEnv)
    (d : DispatchEnv) (text : String) (max_length : Nat) (i : Nat)
    (model : String) : SummaryResponse :=
  match d.raised i with
  | some msg =>
      { model := model, summary := "", response_time := 0,
        token_count := none, success := false, error := some msg }
  | none =>
      let r := (m.generate_summary genv oenv (d.calls i) model text
        max_length).1
      { model := model, summary := r.summary,
        response_time := r.response_time, token_count := r.token_count,
        success := r.success,
        error := if ¬ r.success then r.error else none }

/-- The loop itself, accumulating `results` in request order. -/
def dispatchLoop (f : Nat → String → SummaryResponse) :
    Nat → List String → List SummaryResponse
  | _, [] => []
  | i, model :: rest => f i model :: dispatchLoop f (i + 1) rest

/-- `generate_summaries` (the `/api/summarize` handler): fast-fail checks
in source order (no enabled provider, blank text, empty model list), then
the dispatch loop and the statistics block. -/
def generate_summaries (m : DualLLMManager) (genv : GroqEnv)
    (oenv : OllamaEnv) (d : DispatchEnv) (text : String)
    (models : List String) (max_length : Nat) : SummarizeResponse :=
  if (m.get_enabled_providers oenv).isEmpty then
    { success := false,
      error := some "No API key configured. Please set up your Groq API key first.",
      message := none, results := [], stats := none }
  else if pyStrip text = "" then
    { success := false, error := some "No text provided for summarization.",
      message := none, results := [], stats := none }
  else if models.isEmpty then
    { success := false, error := some "No models selected for comparison.",
      message := none, results := [], stats := none }
  else
    let results := dispatchLoop (dispatchStep m genv oenv d text max_length)
      0 models
    let successful_results := results.filter fun r => r.success
    let nSucc := successful_results.length
    { success := decide (0 < nSucc), error := none,
      message := some ("Generated " ++ toString nSucc ++ " of "
        ++ toString results.length ++ " summaries successfully."),
      results := results,
      stats := some
        { total := results.length, successful := nSucc,
          failed := results.length - nSucc,
          avg_response_time :=
            if 0 < nSucc then
              (successful_results.map fun r => r.response_time).sum / nSucc
            else 0,
          total_tokens :=
            (successful_results.map fun r => r.token_count.getD 0).sum } }

/-! ## Lemmas about the Python string primitives -/

theorem wordsAux_ne_nil (cs : List Char) (acc : List Char) (h : acc ≠ []) :
    wordsAux cs acc ≠ [] := by
  induction cs generalizing acc with
  | nil => simp [wordsAux, h]
  | cons c cs ih =>
      simp only [wordsAux]
      split
      · rw [if_neg (by simpa using h)]
        simp
      · exact ih _ (by simp)

theorem wordsAux_eq_nil_iff (cs : List Char) :
    wordsAux cs [] = [] ↔ ∀ c ∈ cs, pyIsSpace c := by
  induction cs with
  | nil => simp [wordsAux]
  | cons c cs ih =>
      by_cases hc : pyIsSpace c
      · simpa [wordsAux, hc] using ih
      · refine iff_of_false ?_ (by simp [hc])
        simpa [wordsAux, hc] using wordsAux_ne_nil cs [c] (by simp)

theorem all_dropWhile_iff (p : Char → Bool) (l : List Char) :
    (∀ x ∈ l.dropWhile p, p x) ↔ ∀ x ∈ l, p x := by
  constructor
  · intro h x hx
    rw [← List.takeWhile_append_dropWhile (p := p) (l := l)] at hx
    rcases List.mem_append.mp hx with hx | hx
    · exact List.mem_takeWhile_imp hx
    · exact h x hx
  · intro h x hx
    exact h x ((List.dropWhile_sublist p).subset hx)

theorem pyStripList_eq_nil_iff (cs : List Char) :
    pyStripList cs = [] ↔ ∀ c ∈ cs, pyIsSpace c := by
  unfold pyStripList
  rw [List.reverse_eq_nil_iff, List.dropWhile_eq_nil_iff]
  constructor
  · intro h
    rw [← all_dropWhile_iff pyIsSpace cs]
    intro x hx
    exact h x (by simpa using hx)
  · intro h x hx
    exact h x ((List.dropWhile_sublist pyIsSpace).subset (by simpa using hx))

theorem pyStrip_eq_empty_iff (s : String) :
    pyStrip s = "" ↔ ∀ c ∈ s.data, pyIsSpace c := by
  unfold pyStrip
  rw [show ("" : String) = ⟨[]⟩ from rfl]
  constructor
  · intro h
    exact (pyStripList_eq_nil_iff s.data).mp (congrArg String.data h)
  · intro h
    exact String.ext ((pyStripList_eq_nil_iff s.data).mpr h)

theorem pySplit_eq_nil_iff (s : String) :
    pySplit s = [] ↔ pyStrip s = "" := by
  rw [pyStrip_eq_empty_iff]
  unfold pySplit
  rw [List.map_eq_nil_iff]
  exact wordsAux_eq_nil_iff s.data

theorem pyStrip_ne_empty_pos (s : String) (h : pyStrip s ≠ "") :
    0 < (pySplit s).length := by
  rcases Nat.eq_zero_or_pos (pySplit s).length with h0 | h0
  · exact absurd ((pySplit_eq_nil_iff s).mp (List.length_eq_zero.mp h0)) h
  · exact h0

theorem tooShortMsg_ne_tooLongMsg (wc : Nat) :
    tooShortMsg 50 wc ≠ tooLongMsg 10000 wc := by
  intro h
  have hlen := congrArg String.length h
  simp only [tooShortMsg, tooLongMsg, String.length_append] at hlen
  have e1 : "Text too short. Minimum ".length = 24 := by decide
  have e2 : " words required, got ".length = 21 := by decide
  have e3 : "Text too long. Maximum ".length = 23 := by decide
  have e4 : " words allowed, got ".length = 20 := by decide
  have e5 : (toString (50 : Nat)).length = 2 := by decide
  have e6 : (toString (10000 : Nat)).length = 5 := by decide
  omega

/-! ## Claim theorems -/

/-- **C5**: with the default bounds, `validate_text_content` fails with the
"empty" error exactly when the text is blank after trimming; fails with the
"too short" error exactly when the text is non-blank and its word count is
below 50; fails with the "too long" error exactly when the word count
exceeds 10000; and succeeds returning the word count exactly when the text
is non-blank and the word count lies in [50, 10000].  It is a pure
function. -/
theorem validator_spec (text : String) :
    (validate_text_content text
        = ⟨false, some "Text content is empty", 0⟩ ↔ pyStrip text = "") ∧
    (validate_text_content text
        = ⟨false, some (tooShortMsg 50 (pySplit text).length),
            (pySplit text).length⟩
      ↔ pyStrip text ≠ "" ∧ (pySplit text).length < 50) ∧
    (validate_text_content text
        = ⟨false, some (tooLongMsg 10000 (pySplit text).length),
            (pySplit text).length⟩
      ↔ 10000 < (pySplit text).length) ∧
    (validate_text_content text = ⟨true, none, (pySplit text).length⟩
      ↔ pyStrip text ≠ "" ∧ 50 ≤ (pySplit text).length
          ∧ (pySplit text).length ≤ 10000) := by
  by_cases hb : pyStrip text = ""
  · have hwc : (pySplit text).length = 0 :=
      List.length_eq_zero.mpr ((pySplit_eq_nil_iff text).mpr hb)
    have hval : validate_text_content text
        = ⟨false, some "Text content is empty", 0⟩ := by
      unfold validate_text_content
      rw [if_pos (by simp [hb])]
    refine ⟨iff_of_true hval hb, ?_, ?_, ?_⟩
    · refine iff_of_false ?_ (by simp [hb])
      rw [hval, hwc]
      intro h
      have := (ValidationResult.mk.injEq _ _ _ _ _ _).mp h
      revert this
      decide
    · refine iff_of_false ?_ (by omega)
      rw [hval, hwc]
      intro h
      have := (ValidationResult.mk.injEq _ _ _ _ _ _).mp h
      revert this
      decide
    · refine iff_of_false ?_ (by simp [hb])
      rw [hval]
      simp
  · have htext : ¬ (text = "" || pyStrip text = "") = true := by
      simp only [Bool.or_eq_true, decide_eq_true_eq]
      rintro (h | h)
      · exact hb (by rw [h]; rfl)
      · exact hb h
    have hpos : 0 < (pySplit text).length := pyStrip_ne_empty_pos text hb
    have hval : validate_text_content text =
        (if (pySplit text).length < 50 then
          ⟨false, some (tooShortMsg 50 (pySplit text).length),
            (pySplit text).length⟩
        else if (pySplit text).length > 10000 then
          ⟨false, some (tooLongMsg 10000 (pySplit text).length),
            (pySplit text).length⟩
        else ⟨true, none, (pySplit text).length⟩) := by
      unfold validate_text_content
      rw [if_neg htext]
    by_cases h50 : (pySplit text).length < 50
    · rw [hval, if_pos h50]
      refine ⟨?_, iff_of_true rfl ⟨hb, h50⟩, ?_, ?_⟩
      · refine iff_of_false ?_ hb
        intro h
        have := (ValidationResult.mk.injEq _ _ _ _ _ _).mp h
        omega
      · refine iff_of_false ?_ (by omega)
        intro h
        have h2 := (ValidationResult.mk.injEq _ _ _ _ _ _).mp h
        exact tooShortMsg_ne_tooLongMsg _ (Option.some_injective _ h2.2.1)
      · refine iff_of_false ?_ (by omega)
        intro h
        have := (ValidationResult.mk.injEq _ _ _ _ _ _).mp h
        simp at this
    · by_cases h10k : (pySplit text).length > 10000
      · rw [hval, if_neg h50, if_pos h10k]
        refine ⟨?_, ?_, iff_of_true rfl h10k, ?_⟩
        · refine iff_of_false ?_ hb
          intro h
          have := (ValidationResult.mk.injEq _ _ _ _ _ _).mp h
          omega
        · refine iff_of_false ?_ (by omega)
          intro h
          have h2 := (ValidationResult.mk.injEq _ _ _ _ _ _).mp h
          exact tooShortMsg_ne_tooLongMsg _
            (Option.some_injective _ h2.2.1.symm)
        · refine iff_of_false ?_ (by omega)
          intro h
          have := (ValidationResult.mk.injEq _ _ _ _ _ _).mp h
          simp at this
      · rw [hval, if_neg h50, if_neg h10k]
        refine ⟨?_, ?_, ?_, iff_of_true rfl ⟨hb, by omega, by omega⟩⟩
        · refine iff_of_false ?_ hb
          intro h
          have := (ValidationResult.mk.injEq _ _ _ _ _ _).mp h
          simp at this
        · refine iff_of_false ?_ (by omega)
          intro h
          have := (ValidationResult.mk.injEq _ _ _ _ _ _).mp h
          simp at this
        · refine iff_of_false ?_ (by omega)
          intro h
          have := (ValidationResult.mk.injEq _ _ _ _ _ _).mp h
          simp at this

/-! ## Catalog auxiliary lemmas -/

theorem ollama_fst_not_groq :
    ∀ p ∈ ollama_models, p.1 ∉ groq_models.map Prod.fst := by decide

theorem ollama_keys_nodup : (ollama_models.map Prod.fst).Nodup := by decide

theorem eq_of_fst_eq_of_nodup_keys {l : List (String × String)}
    (hn : (l.map Prod.fst).Nodup) {a b : String × String} (ha : a ∈ l)
    (hb : b ∈ l) (h : a.1 = b.1) : a = b := by
  induction l with
  | nil => cases ha
  | cons x xs ih =>
      rw [List.map_cons, List.nodup_cons] at hn
      rcases List.mem_cons.mp ha with ha | ha <;>
        rcases List.mem_cons.mp hb with hb | hb
      · rw [ha, hb]
      · refine absurd (show x.1 ∈ xs.map Prod.fst from ?_) hn.1
        rw [← ha, h]
        exact List.mem_map_of_mem Prod.fst hb
      · refine absurd (show x.1 ∈ xs.map Prod.fst from ?_) hn.1
        rw [← hb, ← h]
        exact List.mem_map_of_mem Prod.fst ha
      · exact ih hn.2 ha hb

theorem dictLookup_eq_none {l : List (String × String)} {k : String}
    (h : k ∉ l.map Prod.fst) : dictLookup l k = none := by
  unfold dictLookup
  rw [List.find?_eq_none.mpr]
  · rfl
  · intro x hx hk
    exact h (by
      rw [decide_eq_true_eq] at hk
      exact hk ▸ List.mem_map_of_mem Prod.fst hx)

/-- **C2**: an outcome of `DualLLMManager.generate_summary` (a Cloud
outcome, a Local outcome, or the manager-synthesized unknown-provider
outcome), and likewise the per-model record built by the dispatch loop,
carries an `error` exactly when `success` is `false`. -/
theorem outcome_error_iff_failure (m : DualLLMManager) (genv : GroqEnv)
    (oenv : OllamaEnv) (c : CallEnv) (d : DispatchEnv) (i : Nat)
    (name text : String) (len : Nat) :
    ((m.generate_summary genv oenv c name text len).1.error.isSome
      ↔ (m.generate_summary genv oenv c name text len).1.success = false) ∧
    ((dispatchStep m genv oenv d text len i name).error.isSome
      ↔ (dispatchStep m genv oenv d text len i name).success = false) := by
  have hmain : ∀ (c' : CallEnv),
      ((m.generate_summary genv oenv c' name text len).1.error.isSome
        ↔ (m.generate_summary genv oenv c' name text len).1.success
            = false) := by
    intro c'
    unfold DualLLMManager.generate_summary
    cases m.get_provider_instance genv name with
    | none => simp
    | some h =>
        cases h with
        | groq g =>
            simp only
            unfold GroqProvider.generate_summary
            by_cases ha : g.is_available = true
            · cases c'.groqCall <;> simp [ha]
            · simp [ha]
        | ollama o =>
            simp only
            unfold OllamaProvider.generate_summary
            by_cases ha : (o.is_available oenv).1 = true
            · cases c'.ollamaCall with
              | timeout => simp [ha]
              | exc msg => simp [ha]
              | resp status txt ev => by_cases hs : status = 200 <;> simp [ha, hs]
            · simp [ha]
  refine ⟨hmain c, ?_⟩
  unfold dispatchStep
  cases d.raised i with
  | some msg => simp
  | none =>
      simp only
      have h := hmain (d.calls i)
      by_cases hs :
          (m.generate_summary genv oenv (d.calls i) name text len).1.success
            = true
      · simp [hs]
      · simp [hs] at h ⊢
        exact h

/-- **C3**: if the effective Cloud credential (the constructor argument
with fallback to the environment variable) is absent or empty, the
constructed `GroqProvider` is unavailable and `generate_summary` returns a
failed outcome with the credential-missing error, issuing zero network
requests. -/
theorem groq_no_credential (genv : GroqEnv) (mn : String)
    (key : Option String) (call : GroqCallResult) (elapsed : Rat)
    (text : String) (len : Nat)
    (h : pyTruthy (pyOr key genv.env_key) = false) :
    (GroqProvider.init genv mn key).is_available = false ∧
    (GroqProvider.init genv mn key).generate_summary call elapsed text len
      = ({ summary := "Groq API key not configured", success := false,
           response_time := 0, token_count := none, model := mn,
           provider := "Groq (Cloud)",
           error := some "API key not provided" }, 0) := by
  have hav : (GroqProvider.init genv mn key).is_available = false := by
    unfold GroqProvider.init GroqProvider.is_available
    simp [h]
  refine ⟨hav, ?_⟩
  unfold GroqProvider.generate_summary
  rw [if_pos (by simp [hav])]
  unfold GroqProvider.init
  simp

/-- Witness for `groq_no_credential` at a concrete configuration with no
environment key and an empty explicit key. -/
theorem groq_no_credential_witness :
    pyTruthy (pyOr (some "") (GroqEnv.mk none true).env_key) = false ∧
    ((GroqProvider.init ⟨none, true⟩ "llama3-8b-8192"
        (some "")).is_available = false ∧
      (GroqProvider.init ⟨none, true⟩ "llama3-8b-8192"
          (some "")).generate_summary (.exc "boom") 1 "some text" 150
        = ({ summary := "Groq API key not configured", success := false,
             response_time := 0, token_count := none,
             model := "llama3-8b-8192", provider := "Groq (Cloud)",
             error := some "API key not provided" }, 0)) :=
  ⟨by decide,
   groq_no_credential ⟨none, true⟩ "llama3-8b-8192" (some "") (.exc "boom")
     1 "some text" 150 (by decide)⟩

/-- **C6**: a Local provider whose backend model id is absent from the
model list reported by the probe is unavailable, its label never appears in
`get_enabled_providers`, and a forced `generate_summary` fails with the
backend-unavailable error. -/
theorem ollama_model_not_installed (oenv : OllamaEnv)
    (installed : List String) (display model : String) (call : OllamaGenCall)
    (elapsed : Rat) (text : String) (len : Nat)
    (htags : oenv.tags = some (200, installed))
    (hmem : (display, model) ∈ ollama_models) (habs : model ∉ installed) :
    (OllamaProvider.mk model).is_available oenv = (false, 1) ∧
    (∀ m : DualLLMManager, display ∉ m.get_enabled_providers oenv) ∧
    (OllamaProvider.mk model).generate_summary oenv call elapsed text len
      = ({ summary := "Ollama model '" ++ model
             ++ "' not available. Please ensure Ollama is running and model is installed.",
           success := false, response_time := 0, token_count := none,
           model := model, provider := "Ollama (Local)",
           error := some ("Model " ++ model ++ " not available") }, 1) := by
  have hav : (OllamaProvider.mk model).is_available oenv = (false, 1) := by
    unfold OllamaProvider.is_available
    rw [htags]
    simp [habs]
  refine ⟨hav, ?_, ?_⟩
  · intro m hdisp
    unfold DualLLMManager.get_enabled_providers at hdisp
    rcases List.mem_append.mp hdisp with hdisp | hdisp
    · have := ollama_fst_not_groq (display, model) hmem
      by_cases hk : pyTruthy m.groq_api_key = true
      · rw [if_pos hk] at hdisp
        exact this hdisp
      · rw [if_neg hk] at hdisp
        cases hdisp
    · have hdisp2 : display ∈ (ollama_models.filter
          fun p => installed.contains p.2).map Prod.fst := by
        unfold DualLLMManager.get_available_ollama_models at hdisp
        rw [htags] at hdisp
        simpa using hdisp
      rcases List.mem_map.mp hdisp2 with ⟨q, hq, hq1⟩
      rcases List.mem_filter.mp hq with ⟨hqmem, hqinst⟩
      have hqd : q = (display, model) :=
        eq_of_fst_eq_of_nodup_keys ollama_keys_nodup hqmem hmem hq1
      rw [hqd] at hqinst
      exact habs (List.mem_of_elem_eq_true hqinst)
  · unfold OllamaProvider.generate_summary
    rw [if_pos (by simp [hav])]

/-- Witness for `ollama_model_not_installed`: the probe reports only
`mistral:7b` installed, so `Ollama - Llama 3 8B` (`llama3:8b`) is disabled
and a forced generation fails. -/
theorem ollama_model_not_installed_witness :
    ((OllamaEnv.mk (some (200, ["mistral:7b"]))).tags
        = some (200, ["mistral:7b"]) ∧
      ("Ollama - Llama 3 8B", "llama3:8b") ∈ ollama_models ∧
      "llama3:8b" ∉ ["mistral:7b"]) ∧
    ((OllamaProvider.mk "llama3:8b").is_available
        ⟨some (200, ["mistral:7b"])⟩ = (false, 1) ∧
      (∀ m : DualLLMManager,
        "Ollama - Llama 3 8B"
          ∉ m.get_enabled_providers ⟨some (200, ["mistral:7b"])⟩) ∧
      (OllamaProvider.mk "llama3:8b").generate_summary
          ⟨some (200, ["mistral:7b"])⟩ .timeout 1 "some text" 150
        = ({ summary := "Ollama model '" ++ "llama3:8b"
               ++ "' not available. Please ensure Ollama is running and model is installed.",
             success := false, response_time := 0, token_count := none,
             model := "llama3:8b", provider := "Ollama (Local)",
             error := some ("Model " ++ "llama3:8b"
               ++ " not available") }, 1)) :=
  ⟨⟨by decide, by decide, by decide⟩,
   ollama_model_not_installed ⟨some (200, ["mistral:7b"])⟩ ["mistral:7b"]
     "Ollama - Llama 3 8B" "llama3:8b" .timeout 1 "some text" 150 rfl
     (by decide) (by decide)⟩

/-- **C7**: resolving a label absent from both catalogs returns `none` (the
"not found" marker), and `generate_summary` on such a label synthesizes a
single failed outcome with the unknown-provider error while issuing zero
network requests. -/
theorem unknown_label_resolution (m : DualLLMManager) (genv : GroqEnv)
    (oenv : OllamaEnv) (c : CallEnv) (name text : String) (len : Nat)
    (hg : name ∉ groq_models.map Prod.fst)
    (ho : name ∉ ollama_models.map Prod.fst) :
    m.get_provider_instance genv name = none ∧
    m.generate_summary genv oenv c name text len
      = ({ summary := "Provider '" ++ name ++ "' not found",
           success := false, response_time := 0, token_count := none,
           model := "Unknown", provider := "Unknown",
           error := some ("Provider '" ++ name ++ "' not available") },
         0) := by
  have hres : m.get_provider_instance genv name = none := by
    unfold DualLLMManager.get_provider_instance
    rw [dictLookup_eq_none hg, dictLookup_eq_none ho]
  refine ⟨hres, ?_⟩
  unfold DualLLMManager.generate_summary
  rw [hres]

/-- Witness for `unknown_label_resolution` at the concrete label
`"GPT-5"`. -/
theorem unknown_label_resolution_witness :
    ("GPT-5" ∉ groq_models.map Prod.fst ∧
      "GPT-5" ∉ ollama_models.map Prod.fst) ∧
    (DualLLMManager.mk (some "sk-1")).get_provider_instance ⟨none, true⟩
        "GPT-5" = none ∧
    (DualLLMManager.mk (some "sk-1")).generate_summary ⟨none, true⟩
        ⟨none⟩ ⟨.exc "boom", .timeout, 1⟩ "GPT-5" "some text" 150
      = ({ summary := "Provider '" ++ "GPT-5" ++ "' not found",
           success := false, response_time := 0, token_count := none,
           model := "Unknown", provider := "Unknown",
           error := some ("Provider '" ++ "GPT-5" ++ "' not available") },
         0) :=
  ⟨⟨by decide, by decide⟩,
   unknown_label_resolution ⟨some "sk-1"⟩ ⟨none, true⟩ ⟨none⟩
     ⟨.exc "boom", .timeout, 1⟩ "GPT-5" "some text" 150 (by decide)
     (by decide)⟩

/-- **C9**: a Cloud handle captures the credential at resolution time: a
handle resolved from manager `m` stores `m`'s effective credential, a
resolution performed after `update_groq_api_key k` yields a handle storing
the new credential, and the old handle's `generate_summary` is exactly the
generation under the credential in force when it was resolved. -/
theorem handle_captures_credential (m : DualLLMManager) (genv : GroqEnv)
    (name k : String) (g : GroqProvider)
    (h : m.get_provider_instance genv name = some (.groq g)) :
    g.api_key = pyOr m.groq_api_key genv.env_key ∧
    (m.update_groq_api_key k).get_provider_instance genv name
      = some (.groq (GroqProvider.init genv g.model_name (some k))) ∧
    ∀ call elapsed text len,
      g.generate_summary call elapsed text len
        = (GroqProvider.init genv g.model_name
            m.groq_api_key).generate_summary call elapsed text len := by
  unfold DualLLMManager.get_provider_instance at h
  cases hlook : dictLookup groq_models name with
  | none =>
      rw [hlook] at h
      cases hlook2 : dictLookup ollama_models name with
      | none => rw [hlook2] at h; cases h
      | some mn => rw [hlook2] at h; cases h
  | some mn =>
      rw [hlook] at h
      have hg : g = GroqProvider.init genv mn m.groq_api_key := by
        have := Option.some_injective _ h
        cases this
        rfl
      have hmn : g.model_name = mn := by rw [hg]; rfl
      refine ⟨by rw [hg]; rfl, ?_, ?_⟩
      · unfold DualLLMManager.get_provider_instance
        rw [hlook, hmn]
        rfl
      · intro call elapsed text len
        rw [hg]
        rfl

/-- Witness for `handle_captures_credential`: resolving
`Groq - Llama 3 8B` under the old key, then updating to a new key. -/
theorem handle_captures_credential_witness :
    (DualLLMManager.mk (some "old-key")).get_provider_instance ⟨none, true⟩
        "Groq - Llama 3 8B"
      = some (.groq ⟨"llama3-8b-8192", some "old-key", true⟩) ∧
    ((⟨"llama3-8b-8192", some "old-key", true⟩ : GroqProvider).api_key
        = pyOr (DualLLMManager.mk (some "old-key")).groq_api_key
            (GroqEnv.mk none true).env_key ∧
      ((DualLLMManager.mk
            (some "old-key")).update_groq_api_key
            "new-key").get_provider_instance ⟨none, true⟩ "Groq - Llama 3 8B"
        = some (.groq (GroqProvider.init ⟨none, true⟩ "llama3-8b-8192"
            (some "new-key"))) ∧
      ∀ call elapsed text len,
        (⟨"llama3-8b-8192", some "old-key", true⟩ :
            GroqProvider).generate_summary call elapsed text len
          = (GroqProvider.init ⟨none, true⟩ "llama3-8b-8192"
              (some "old-key")).generate_summary call elapsed text len) :=
  ⟨by decide,
   handle_captures_credential ⟨some "old-key"⟩ ⟨none, true⟩
     "Groq - Llama 3 8B" "new-key" ⟨"llama3-8b-8192", some "old-key", true⟩
     (by decide)⟩

/-- **C10**: for every credential configuration and probe result, the
enabled-labels list is a sublist (subsequence, order preserved) of the full
catalog list, Cloud labels before Local labels. -/
theorem enabled_sublist_available (m : DualLLMManager) (env : OllamaEnv) :
    List.Sublist (m.get_enabled_providers env) m.get_available_providers := by
  unfold DualLLMManager.get_enabled_providers
    DualLLMManager.get_available_providers
    DualLLMManager.get_available_ollama_models
  apply List.Sublist.append
  · by_cases hk : pyTruthy m.groq_api_key = true
    · rw [if_pos hk]
    · rw [if_neg hk]
      exact List.nil_sublist _
  · obtain ⟨tags⟩ := env
    cases tags with
    | none => exact List.nil_sublist _
    | some t =>
        rcases t with ⟨status, installed⟩
        simp only
        by_cases hs : status = 200
        · rw [if_pos hs]
          exact List.Sublist.map Prod.fst (List.filter_sublist _)
        · rw [if_neg hs]
          exact List.nil_sublist _

/-! ## Dispatch-loop lemmas -/

theorem dispatchStep_model (m : DualLLMManager) (genv : GroqEnv)
    (oenv : OllamaEnv) (d : DispatchEnv) (text : String) (len i : Nat)
    (model : String) :
    (dispatchStep m genv oenv d text len i model).model = model := by
  unfold dispatchStep
  cases hr : d.raised i <;> rfl

theorem dispatchLoop_length (f : Nat → String → SummaryResponse) :
    ∀ (i : Nat) (ms : List String), (dispatchLoop f i ms).length = ms.length
  | _, [] => rfl
  | i, _ :: ms => by simp [dispatchLoop, dispatchLoop_length f (i + 1) ms]

theorem dispatchLoop_map_model (f : Nat → String → SummaryResponse)
    (hf : ∀ i mo, (f i mo).model = mo) :
    ∀ (i : Nat) (ms : List String),
      (dispatchLoop f i ms).map (fun r => r.model) = ms
  | _, [] => rfl
  | i, mo :: ms => by
      simp [dispatchLoop, hf, dispatchLoop_map_model f hf (i + 1) ms]

/-- Running `generate_summaries` past the three fast-fail checks yields the
fully-populated envelope over the dispatch loop. -/
theorem generate_summaries_eq (m : DualLLMManager) (genv : GroqEnv)
    (oenv : OllamaEnv) (d : DispatchEnv) (text : String)
    (models : List String) (len : Nat)
    (hen : m.get_enabled_providers oenv ≠ [])
    (htext : pyStrip text ≠ "") (hmodels : models ≠ []) :
    generate_summaries m genv oenv d text models len =
      { success := decide (0 < ((dispatchLoop
            (dispatchStep m genv oenv d text len) 0 models).filter
              fun r => r.success).length),
        error := none,
        message := some ("Generated "
          ++ toString ((dispatchLoop (dispatchStep m genv oenv d text len)
              0 models).filter fun r => r.success).length
          ++ " of "
          ++ toString (dispatchLoop (dispatchStep m genv oenv d text len)
              0 models).length
          ++ " summaries successfully."),
        results := dispatchLoop (dispatchStep m genv oenv d text len)
          0 models,
        stats := some
          { total := (dispatchLoop (dispatchStep m genv oenv d text len)
              0 models).length,
            successful := ((dispatchLoop
              (dispatchStep m genv oenv d text len) 0 models).filter
                fun r => r.success).length,
            failed := (dispatchLoop (dispatchStep m genv oenv d text len)
                0 models).length
              - ((dispatchLoop (dispatchStep m genv oenv d text len)
                0 models).filter fun r => r.success).length,
            avg_response_time :=
              if 0 < ((dispatchLoop (dispatchStep m genv oenv d text len)
                  0 models).filter fun r => r.success).length then
                (((dispatchLoop (dispatchStep m genv oenv d text len)
                    0 models).filter fun r => r.success).map
                      fun r => r.response_time).sum
                  / (((dispatchLoop (dispatchStep m genv oenv d text len)
                    0 models).filter fun r => r.success).length : Rat)
              else 0,
            total_tokens := (((dispatchLoop
              (dispatchStep m genv oenv d text len) 0 models).filter
                fun r => r.success).map
                  fun r => r.token_count.getD 0).sum } } := by
  unfold generate_summaries
  rw [if_neg (by simpa using hen), if_neg htext,
    if_neg (by simpa using hmodels)]

/-- **C1 (amended)**: provided the dispatch is not fast-failed (some
provider is enabled, the text is non-blank, the label list is non-empty),
`generate_summaries` returns exactly one outcome per requested label, in
request order — duplicated labels give duplicated outcomes. -/
theorem dispatch_one_outcome_per_label (m : DualLLMManager) (genv : GroqEnv)
    (oenv : OllamaEnv) (d : DispatchEnv) (text : String)
    (models : List String) (len : Nat)
    (hen : m.get_enabled_providers oenv ≠ [])
    (htext : pyStrip text ≠ "") (hmodels : models ≠ []) :
    ((generate_summaries m genv oenv d text models len).results.map
        fun r => r.model) = models ∧
    (generate_summaries m genv oenv d text models len).results.length
      = models.length := by
  rw [generate_summaries_eq m genv oenv d text models len hen htext hmodels]
  exact ⟨dispatchLoop_map_model _
      (fun i mo => dispatchStep_model m genv oenv d text len i mo) 0 models,
    dispatchLoop_length _ 0 models⟩

/-- Witness for `dispatch_one_outcome_per_label`, with a duplicated label:
two outcomes come back, in order. -/
theorem dispatch_one_outcome_per_label_witness :
    ((DualLLMManager.mk (some "sk-test")).get_enabled_providers ⟨none⟩ ≠ []
      ∧ pyStrip "hello world text" ≠ ""
      ∧ (["Groq - Llama 3 8B", "Groq - Llama 3 8B"] : List String) ≠ []) ∧
    (((generate_summaries ⟨some "sk-test"⟩ ⟨none, true⟩ ⟨none⟩
          ⟨fun _ => ⟨.ok "hi" (some 3), .timeout, 1⟩, fun _ => none⟩
          "hello world text" ["Groq - Llama 3 8B", "Groq - Llama 3 8B"]
          150).results.map fun r => r.model)
        = ["Groq - Llama 3 8B", "Groq - Llama 3 8B"] ∧
      (generate_summaries ⟨some "sk-test"⟩ ⟨none, true⟩ ⟨none⟩
          ⟨fun _ => ⟨.ok "hi" (some 3), .timeout, 1⟩, fun _ => none⟩
          "hello world text" ["Groq - Llama 3 8B", "Groq - Llama 3 8B"]
          150).results.length = 2) :=
  ⟨⟨by decide, by decide, by decide⟩,
   dispatch_one_outcome_per_label ⟨some "sk-test"⟩ ⟨none, true⟩ ⟨none⟩
     ⟨fun _ => ⟨.ok "hi" (some 3), .timeout, 1⟩, fun _ => none⟩
     "hello world text" ["Groq - Llama 3 8B", "Groq - Llama 3 8B"] 150
     (by decide) (by decide) (by decide)⟩

set_option maxRecDepth 8192 in
/-- **C1 counterexample**: with no credential configured and the local
service down, a dispatch of one label on a validator-valid (50-word,
non-blank) text returns 0 outcomes, not `len(L) = 1`: the no-enabled-
provider fast-fail aborts the dispatch even for valid non-blank text. -/
theorem dispatch_count_counterexample :
    (validate_text_content
        (String.intercalate " " (List.replicate 50 "a"))).valid = true ∧
    (["Groq - Llama 3 8B"] : List String).length = 1 ∧
    (generate_summaries ⟨none⟩ ⟨none, true⟩ ⟨none⟩
        ⟨fun _ => ⟨.exc "e", .timeout, 1⟩, fun _ => none⟩
        (String.intercalate " " (List.replicate 50 "a"))
        ["Groq - Llama 3 8B"] 150).results.length = 0 := by
  refine ⟨by decide, rfl, rfl⟩

/-- **C4 (amended)**: besides blank text and an empty label set, the
no-enabled-provider check also fast-fails the dispatch; when none of the
three fast-fail checks fires, the response is fully populated — `error`
clear, `message` present, one outcome per label and a complete statistics
block — even when every per-provider outcome fails. -/
theorem dispatch_populated_on_total_failure (m : DualLLMManager)
    (genv : GroqEnv) (oenv : OllamaEnv) (d : DispatchEnv) (text : String)
    (models : List String) (len : Nat)
    (hen : m.get_enabled_providers oenv ≠ [])
    (htext : pyStrip text ≠ "") (hmodels : models ≠ []) :
    (generate_summaries m genv oenv d text models len).error = none ∧
    (generate_summaries m genv oenv d text models len).message.isSome
      = true ∧
    (generate_summaries m genv oenv d text models len).results.length
      = models.length ∧
    ∃ st : Stats,
      (generate_summaries m genv oenv d text models len).stats = some st ∧
      st.total = models.length ∧ st.failed = st.total - st.successful := by
  rw [generate_summaries_eq m genv oenv d text models len hen htext hmodels]
  exact ⟨rfl, rfl, dispatchLoop_length _ 0 models,
    _, rfl, dispatchLoop_length _ 0 models, rfl⟩

/-- Witness for `dispatch_populated_on_total_failure` in a run where both
requested providers fail (Cloud call raises, Local probe is down): the
response is still fully populated, with 0 successes. -/
theorem dispatch_populated_on_total_failure_witness :
    ((DualLLMManager.mk (some "k2")).get_enabled_providers ⟨none⟩ ≠ []
      ∧ pyStrip "non blank" ≠ ""
      ∧ (["Groq - Gemma 7B", "Ollama - Mistral 7B"] : List String) ≠ []) ∧
    ((generate_summaries ⟨some "k2"⟩ ⟨none, true⟩ ⟨none⟩
          ⟨fun _ => ⟨.exc "boom", .timeout, 1⟩, fun _ => none⟩ "non blank"
          ["Groq - Gemma 7B", "Ollama - Mistral 7B"] 150).results.filter
        fun r => r.success).length = 0 ∧
    ((generate_summaries ⟨some "k2"⟩ ⟨none, true⟩ ⟨none⟩
          ⟨fun _ => ⟨.exc "boom", .timeout, 1⟩, fun _ => none⟩ "non blank"
          ["Groq - Gemma 7B", "Ollama - Mistral 7B"] 150).error = none ∧
      (generate_summaries ⟨some "k2"⟩ ⟨none, true⟩ ⟨none⟩
          ⟨fun _ => ⟨.exc "boom", .timeout, 1⟩, fun _ => none⟩ "non blank"
          ["Groq - Gemma 7B", "Ollama - Mistral 7B"] 150).message.isSome
        = true ∧
      (generate_summaries ⟨some "k2"⟩ ⟨none, true⟩ ⟨none⟩
          ⟨fun _ => ⟨.exc "boom", .timeout, 1⟩, fun _ => none⟩ "non blank"
          ["Groq - Gemma 7B", "Ollama - Mistral 7B"] 150).results.length
        = 2 ∧
      ∃ st : Stats,
        (generate_summaries ⟨some "k2"⟩ ⟨none, true⟩ ⟨none⟩
            ⟨fun _ => ⟨.exc "boom", .timeout, 1⟩, fun _ => none⟩ "non blank"
            ["Groq - Gemma 7B", "Ollama - Mistral 7B"] 150).stats = some st ∧
        st.total = 2 ∧ st.failed = st.total - st.successful) :=
  ⟨⟨by decide, by decide, by decide⟩, by decide,
   dispatch_populated_on_total_failure ⟨some "k2"⟩ ⟨none, true⟩ ⟨none⟩
     ⟨fun _ => ⟨.exc "boom", .timeout, 1⟩, fun _ => none⟩ "non blank"
     ["Groq - Gemma 7B", "Ollama - Mistral 7B"] 150 (by decide) (by decide)
     (by decide)⟩

/-- **C4 counterexample**: a non-blank text and a non-empty label list,
yet the whole dispatch aborts (empty results, no stats) because no provider
is enabled — an abort that is not one of the two claimed input-validation
cases. -/
theorem dispatch_abort_counterexample :
    pyStrip "plenty of words in this text" ≠ "" ∧
    (["Ollama - Mistral 7B"] : List String) ≠ [] ∧
    generate_summaries ⟨some ""⟩ ⟨none, true⟩ ⟨some (500, [])⟩
        ⟨fun _ => ⟨.exc "e", .timeout, 1⟩, fun _ => none⟩
        "plenty of words in this text" ["Ollama - Mistral 7B"] 150
      = { success := false,
          error := some "No API key configured. Please set up your Groq API key first.",
          message := none, results := [], stats := none } := by
  refine ⟨by decide, by decide, rfl⟩

/-- **C8**: the statistics block of a completed dispatch satisfies the
spec formulas over the outcome sequence: `total` is the outcome count,
`successful` counts the successful outcomes, `failed = total - successful`,
`avg_response_time` is 0 with no successes and otherwise the arithmetic
mean of `response_time` over successful outcomes only, and `total_tokens`
sums token counts over successful outcomes with absent counts as 0. -/
theorem dispatch_stats_formulas (m : DualLLMManager) (genv : GroqEnv)
    (oenv : OllamaEnv) (d : DispatchEnv) (text : String)
    (models : List String) (len : Nat)
    (hen : m.get_enabled_providers oenv ≠ [])
    (htext : pyStrip text ≠ "") (hmodels : models ≠ []) :
    ∃ st : Stats,
      (generate_summaries m genv oenv d text models len).stats = some st ∧
      st.total
        = (generate_summaries m genv oenv d text models len).results.length ∧
      st.successful = ((generate_summaries m genv oenv d text models
        len).results.filter fun r => r.success).length ∧
      st.failed = st.total - st.successful ∧
      (st.successful = 0 → st.avg_response_time = 0) ∧
      (0 < st.successful → st.avg_response_time
        = (((generate_summaries m genv oenv d text models
            len).results.filter fun r => r.success).map
              fun r => r.response_time).sum / (st.successful : Rat)) ∧
      st.total_tokens = (((generate_summaries m genv oenv d text models
        len).results.filter fun r => r.success).map
          fun r => r.token_count.getD 0).sum := by
  rw [generate_summaries_eq m genv oenv d text models len hen htext hmodels]
  refine ⟨_, rfl, rfl, rfl, rfl, ?_, ?_, rfl⟩
  · intro h0
    have h0' : ((dispatchLoop (dispatchStep m genv oenv d text len)
        0 models).filter fun r => r.success).length = 0 := h0
    simp only [h0']
    rw [if_neg (by omega)]
  · intro h0
    have h0' : 0 < ((dispatchLoop (dispatchStep m genv oenv d text len)
        0 models).filter fun r => r.success).length := h0
    rw [if_pos h0']

/-- Witness for `dispatch_stats_formulas` on a run with one success
(elapsed 2, 7 tokens) and one failure. -/
theorem dispatch_stats_formulas_witness :
    ((DualLLMManager.mk (some "sk-w")).get_enabled_providers ⟨none⟩ ≠ []
      ∧ pyStrip "words" ≠ ""
      ∧ (["Groq - Llama 3.1 8B", "Ollama - Phi-3 Mini"] : List String)
          ≠ []) ∧
    (∃ st : Stats,
      (generate_summaries ⟨some "sk-w"⟩ ⟨none, true⟩ ⟨none⟩
          ⟨fun _ => ⟨.ok " hi " (some 7), .timeout, 2⟩, fun _ => none⟩
          "words" ["Groq - Llama 3.1 8B", "Ollama - Phi-3 Mini"]
          150).stats = some st ∧
      st.total = (generate_summaries ⟨some "sk-w"⟩ ⟨none, true⟩ ⟨none⟩
          ⟨fun _ => ⟨.ok " hi " (some 7), .timeout, 2⟩, fun _ => none⟩
          "words" ["Groq - Llama 3.1 8B", "Ollama - Phi-3 Mini"]
          150).results.length ∧
      st.successful = ((generate_summaries ⟨some "sk-w"⟩ ⟨none, true⟩
          ⟨none⟩ ⟨fun _ => ⟨.ok " hi " (some 7), .timeout, 2⟩,
            fun _ => none⟩ "words"
          ["Groq - Llama 3.1 8B", "Ollama - Phi-3 Mini"]
          150).results.filter fun r => r.success).length ∧
      st.failed = st.total - st.successful ∧
      (st.successful = 0 → st.avg_response_time = 0) ∧
      (0 < st.successful → st.avg_response_time
        = (((generate_summaries ⟨some "sk-w"⟩ ⟨none, true⟩ ⟨none⟩
            ⟨fun _ => ⟨.ok " hi " (some 7), .timeout, 2⟩, fun _ => none⟩
            "words" ["Groq - Llama 3.1 8B", "Ollama - Phi-3 Mini"]
            150).results.filter fun r => r.success).map
              fun r => r.response_time).sum / (st.successful : Rat)) ∧
      st.total_tokens = (((generate_summaries ⟨some "sk-w"⟩ ⟨none, true⟩
          ⟨none⟩ ⟨fun _ => ⟨.ok " hi " (some 7), .timeout, 2⟩,
            fun _ => none⟩ "words"
          ["Groq - Llama 3.1 8B", "Ollama - Phi-3 Mini"]
          150).results.filter fun r => r.success).map
            fun r => r.token_count.getD 0).sum) :=
  ⟨⟨by decide, by decide, by decide⟩,
   dispatch_stats_formulas ⟨some "sk-w"⟩ ⟨none, true⟩ ⟨none⟩
     ⟨fun _ => ⟨.ok " hi " (some 7), .timeout, 2⟩, fun _ => none⟩ "words"
     ["Groq - Llama 3.1 8B", "Ollama - Phi-3 Mini"] 150 (by decide)
     (by decide) (by decide)⟩

end LLMPlayground
